import Mathlib

/-!
Verification of the BGH Smart Home Assistant integration
(`custom_components/bgh_smart/climate.py` and `config_flow.py`).

The Python code is shallowly embedded: dictionaries become structures,
`KeyError`-raising lookups become `Option`-valued functions, entity
methods become pure state transformers, and the vendor-client pushes
(`client.set_mode(...)`) are collected as an explicit list of calls.
Home Assistant constants keep their string values
(`HVACMode.COOL = "cool"`, `FAN_MEDIUM = "medium"`, `STATE_UNKNOWN =
"unknown"`, ...).
-/

/-- `homeassistant.const.STATE_UNKNOWN`. -/
def STATE_UNKNOWN : String := "unknown"

/-- `homeassistant.components.climate.const.FAN_AUTO`. -/
def FAN_AUTO : String := "auto"

/-- `FAN_LOW`. -/
def FAN_LOW : String := "low"

/-- `FAN_MEDIUM`. -/
def FAN_MEDIUM : String := "medium"

/-- `FAN_HIGH`. -/
def FAN_HIGH : String := "high"

/-- Python truthiness of an optional string (`None` and `""` are falsy). -/
def truthy_str : Option String → Bool
  | none => false
  | some t => !t.isEmpty

/-- Nested `data` dictionary of a vendor device record:
`device["data"]` with keys `temperature`, `target_temperature`,
`mode_id`, `fan_speed`. -/
structure DeviceData where
  temperature : Int
  target_temperature : Int
  mode_id : Nat
  fan_speed : Nat
deriving Repr, DecidableEq

/-- A home record as returned by `client.get_homes()`: a dictionary with a
`HomeID` key.  The same shape appears nested as `device["device_data"]`. -/
structure HomeRecord where
  HomeID : Nat
deriving Repr, DecidableEq

/-- A vendor device record as produced by `pybgh`:
`device_name`, `device_id`, `device_data` (holding `HomeID`), the
`raw_data` presence flag, and the nested `data` dictionary. -/
structure Device where
  device_name : String
  device_id : Nat
  device_data : HomeRecord
  raw_data : Bool
  data : DeviceData
deriving Repr, DecidableEq

/-- `MAP_MODE_ID` from `climate.py`: vendor mode code → HVAC mode string.
Codes absent from the dictionary give `none` (a `KeyError` in Python). -/
def MAP_MODE_ID (c : Nat) : Option String :=
  if c = 0 then some "off"
  else if c = 1 then some "cool"
  else if c = 2 then some "heat"
  else if c = 3 then some "dry"
  else if c = 4 then some "fan_only"
  else if c = 254 then some "auto"
  else none

/-- `MAP_FAN_MODE_ID` from `climate.py`: vendor fan-speed code → fan mode
string.  Codes absent from the dictionary give `none` (a `KeyError`). -/
def MAP_FAN_MODE_ID (c : Nat) : Option String :=
  if c = 1 then some FAN_LOW
  else if c = 2 then some FAN_MEDIUM
  else if c = 3 then some FAN_HIGH
  else if c = 254 then some FAN_AUTO
  else none

/-- The mutable attribute state of a `BghHVAC` entity. -/
structure BghHVAC where
  device : Device
  device_name : String
  device_id : Nat
  home_id : Nat
  min_temp : Option Int
  max_temp : Option Int
  current_temperature : Option Int
  target_temperature : Option Int
  mode : String
  fan_speed : String
deriving Repr, DecidableEq

/-- `BghHVAC._parse_data`: sets the bounds, then, only when
`device["raw_data"]` is truthy, replaces the cached climate fields from
`device["data"]`.  A failing dictionary lookup (`KeyError`) is `none`. -/
def BghHVAC.parse_data (s : BghHVAC) : Option BghHVAC :=
  let s1 : BghHVAC := { s with min_temp := some 17, max_temp := some 30 }
  if s1.device.raw_data then
    match MAP_MODE_ID s1.device.data.mode_id with
    | none => none
    | some m =>
      match MAP_FAN_MODE_ID s1.device.data.fan_speed with
      | none => none
      | some f =>
        some { s1 with
                current_temperature := some s1.device.data.temperature,
                target_temperature := some s1.device.data.target_temperature,
                mode := m,
                fan_speed := f }
  else
    some s1

/-- `BghHVAC.__init__`: caches identity fields from the record, seeds the
climate defaults (`None`, `None`, `STATE_UNKNOWN`, `FAN_AUTO`), then runs
`_parse_data`. -/
def BghHVAC.init (device : Device) : Option BghHVAC :=
  BghHVAC.parse_data
    { device := device
      device_name := device.device_name
      device_id := device.device_id
      home_id := device.device_data.HomeID
      min_temp := none
      max_temp := none
      current_temperature := none
      target_temperature := none
      mode := STATE_UNKNOWN
      fan_speed := FAN_AUTO }

/-- `BghHVAC.update`: stores the record fetched by
`client.get_status(home_id, device_id)` and re-parses.  The fetched
record is passed in explicitly, standing for the client's answer. -/
def BghHVAC.update (s : BghHVAC) (fetched : Device) : Option BghHVAC :=
  BghHVAC.parse_data { s with device := fetched }

/-- `hvac_mode` property: returns `self._mode`. -/
def BghHVAC.hvac_mode (s : BghHVAC) : String := s.mode

/-- `fan_mode` property: returns `self._fan_speed`. -/
def BghHVAC.fan_mode (s : BghHVAC) : String := s.fan_speed

/-- One `client.set_mode(device_id, mode, target_temperature, fan_speed)`
push to the vendor client. -/
structure SetModeCall where
  device_id : Nat
  mode : String
  target_temperature : Option Int
  fan_speed : String
deriving Repr, DecidableEq

/-- `BghHVAC.set_mode`: the full tuple pushed to the vendor client. -/
def BghHVAC.set_mode (s : BghHVAC) : SetModeCall :=
  { device_id := s.device_id
    mode := s.mode
    target_temperature := s.target_temperature
    fan_speed := s.fan_speed }

/-- `BghHVAC.set_temperature(**kwargs)`: reads `kwargs.get(ATTR_TEMPERATURE)`
and `kwargs.get(ATTR_HVAC_MODE)`, updates each cached field only when the
value is truthy (`None` and `0` are falsy for the temperature, `None` and
`""` for the mode), then pushes via `set_mode`.  Returns the new state and
the list of pushes issued. -/
def BghHVAC.set_temperature (s : BghHVAC) (temperature : Option Int)
    (operation_mode : Option String) : BghHVAC × List SetModeCall :=
  let s1 := match temperature with
    | some t => if t ≠ 0 then { s with target_temperature := some t } else s
    | none => s
  let s2 := match operation_mode with
    | some m => if m ≠ "" then { s1 with mode := m } else s1
    | none => s1
  (s2, [BghHVAC.set_mode s2])

/-- `BghHVAC.set_hvac_mode`: caches the new mode, then pushes. -/
def BghHVAC.set_hvac_mode (s : BghHVAC) (operation_mode : String) :
    BghHVAC × List SetModeCall :=
  let s1 := { s with mode := operation_mode }
  (s1, [BghHVAC.set_mode s1])

/-- `BghHVAC.set_fan_mode`: caches the new fan mode, then pushes. -/
def BghHVAC.set_fan_mode (s : BghHVAC) (fan_mode : String) :
    BghHVAC × List SetModeCall :=
  let s1 := { s with fan_speed := fan_mode }
  (s1, [BghHVAC.set_mode s1])

/-- One public call on a `BghHVAC` entity after construction.  `update`
carries the device record the client answers with. -/
inductive Op where
  | update (fetched : Device)
  | setTemperature (temperature : Option Int) (operation_mode : Option String)
  | setHvacMode (operation_mode : String)
  | setFanMode (fan_mode : String)
deriving Repr, DecidableEq

/-- Apply one call to an entity state (pushes discarded). -/
def Op.apply (s : BghHVAC) : Op → Option BghHVAC
  | .update fetched => BghHVAC.update s fetched
  | .setTemperature t m => some (BghHVAC.set_temperature s t m).1
  | .setHvacMode m => some (BghHVAC.set_hvac_mode s m).1
  | .setFanMode f => some (BghHVAC.set_fan_mode s f).1

/-- Run a sequence of calls; `none` as soon as one raises. -/
def runOps (s : BghHVAC) : List Op → Option BghHVAC
  | [] => some s
  | o :: rest =>
    match Op.apply s o with
    | some s1 => runOps s1 rest
    | none => none

/-- The vendor-client surface consumed by `setup_platform`:
`token`, `get_homes()`, and `get_devices(home_id)` (a Python dict modelled
as an association list in its iteration order). -/
structure SetupClient where
  token : Option String
  homes : List HomeRecord
  devices : Nat → List (Nat × Device)

/-- The device-discovery loop of `setup_platform`: for each home of
`client.get_homes()`, append every device of
`client.get_devices(home["HomeID"])` in iteration order. -/
def setup_devices (client : SetupClient) : List Device :=
  client.homes.foldl
    (fun acc home => acc ++ (client.devices home.HomeID).map (fun p => p.2)) []

/-- `setup_platform`: abort (`none`) when `client.token` is falsy, else
construct one `BghHVAC` per discovered record, in order.  Each list entry
is the entity's constructor outcome. -/
def setup_platform (client : SetupClient) : Option (List (Option BghHVAC)) :=
  if truthy_str client.token then
    some ((setup_devices client).map BghHVAC.init)
  else
    none

/-- The spec's description of discovery: the concatenation, in enumeration
order, of the device records of every home. -/
def discovered_devices_spec (client : SetupClient) : List Device :=
  (client.homes.map (fun home => (client.devices home.HomeID).map (fun p => p.2))).flatten

/-- Result of the config-flow `user` step. -/
inductive FlowResult where
  | abort
  | createEntry (title : String) (data_username : String) (data_password : String)
  | showForm (errors : List (String × String))
deriving Repr, DecidableEq

/-- `BGHSmartConfigFlow.async_step_user`.  `user_input` is the submitted
`(username, password)` when present; `alreadyConfigured` is the host's
answer to `_abort_if_unique_id_configured`; `token` is the `token`
attribute of the `pybgh.BghClient` built from the credentials. -/
def async_step_user (alreadyConfigured : Bool)
    (user_input : Option (String × String)) (token : Option String) :
    FlowResult :=
  match user_input with
  | some (username, password) =>
    if alreadyConfigured then FlowResult.abort
    else if truthy_str token then
      FlowResult.createEntry username username password
    else
      FlowResult.showForm [("base", "auth")]
  | none => FlowResult.showForm []

/-! ## Sample concrete records used by the witnesses -/

/-- A record with `raw_data` truthy and an out-of-table mode code. -/
def devModeBad : Device :=
  { device_name := "ac", device_id := 1, device_data := { HomeID := 5 },
    raw_data := true,
    data := { temperature := 20, target_temperature := 21, mode_id := 7,
              fan_speed := 1 } }

/-- A record with `raw_data` truthy and an out-of-table fan code. -/
def devFanBad : Device :=
  { device_name := "ac", device_id := 1, device_data := { HomeID := 5 },
    raw_data := true,
    data := { temperature := 20, target_temperature := 21, mode_id := 1,
              fan_speed := 9 } }

/-- A record with `raw_data` falsy. -/
def devNoRaw : Device :=
  { device_name := "ac", device_id := 1, device_data := { HomeID := 5 },
    raw_data := false,
    data := { temperature := 0, target_temperature := 0, mode_id := 0,
              fan_speed := 1 } }

/-- A record with `raw_data` truthy and
`data = (temperature 22, target 24, mode_id 1, fan_speed 2)`. -/
def devCool22 : Device :=
  { device_name := "ac", device_id := 1, device_data := { HomeID := 5 },
    raw_data := true,
    data := { temperature := 22, target_temperature := 24, mode_id := 1,
              fan_speed := 2 } }

/-- An entity state wrapping `devModeBad`. -/
def entModeBad : BghHVAC :=
  { device := devModeBad, device_name := "ac", device_id := 1, home_id := 5,
    min_temp := some 17, max_temp := some 30,
    current_temperature := some 20, target_temperature := some 21,
    mode := "cool", fan_speed := "low" }

/-- An entity state wrapping `devFanBad`. -/
def entFanBad : BghHVAC :=
  { entModeBad with device := devFanBad }

/-- An arbitrary concrete entity state. -/
def entSample : BghHVAC :=
  { device := devCool22, device_name := "ac", device_id := 1, home_id := 5,
    min_temp := some 17, max_temp := some 30,
    current_temperature := some 22, target_temperature := some 24,
    mode := "cool", fan_speed := "medium" }

/-! ## Claims -/

/-- C1: the mode mapping used during refresh is exactly
`{0 ↦ off, 1 ↦ cool, 2 ↦ heat, 3 ↦ dry, 4 ↦ fan_only, 254 ↦ auto}`, and
for any code outside that set the lookup fails, so `_parse_data` on a
record carrying that code (with `raw_data` truthy) fails instead of
producing a mode. -/
theorem c1_mode_mapping :
    (MAP_MODE_ID 0 = some "off" ∧ MAP_MODE_ID 1 = some "cool" ∧
     MAP_MODE_ID 2 = some "heat" ∧ MAP_MODE_ID 3 = some "dry" ∧
     MAP_MODE_ID 4 = some "fan_only" ∧ MAP_MODE_ID 254 = some "auto") ∧
    ∀ c : Nat, c ∉ ([0, 1, 2, 3, 4, 254] : List Nat) →
      MAP_MODE_ID c = none ∧
      ∀ s : BghHVAC, s.device.raw_data = true → s.device.data.mode_id = c →
        BghHVAC.parse_data s = none := by
  refine ⟨⟨rfl, rfl, rfl, rfl, rfl, rfl⟩, ?_⟩
  intro c hc
  simp only [List.mem_cons, List.not_mem_nil, or_false, not_or] at hc
  obtain ⟨h0, h1, h2, h3, h4, h254⟩ := hc
  have hmap : MAP_MODE_ID c = none := by
    unfold MAP_MODE_ID
    simp [h0, h1, h2, h3, h4, h254]
  refine ⟨hmap, ?_⟩
  intro s hraw hmode
  unfold BghHVAC.parse_data
  simp [hraw, hmode, hmap]

/-- Witness for C1 at the concrete out-of-table code 7. -/
theorem c1_mode_mapping_witness :
    MAP_MODE_ID 7 = none ∧ BghHVAC.parse_data entModeBad = none := by
  have h := c1_mode_mapping.2 7 (by decide)
  exact ⟨h.1, h.2 entModeBad rfl rfl⟩

/-- C2: the fan-speed mapping used during refresh is exactly
`{1 ↦ low, 2 ↦ medium, 3 ↦ high, 254 ↦ auto}`, and for any code outside
that set the lookup fails, so `_parse_data` on a record carrying that
code (with `raw_data` truthy) fails instead of producing a fan mode. -/
theorem c2_fan_mapping :
    (MAP_FAN_MODE_ID 1 = some "low" ∧ MAP_FAN_MODE_ID 2 = some "medium" ∧
     MAP_FAN_MODE_ID 3 = some "high" ∧ MAP_FAN_MODE_ID 254 = some "auto") ∧
    ∀ c : Nat, c ∉ ([1, 2, 3, 254] : List Nat) →
      MAP_FAN_MODE_ID c = none ∧
      ∀ s : BghHVAC, s.device.raw_data = true → s.device.data.fan_speed = c →
        BghHVAC.parse_data s = none := by
  refine ⟨⟨rfl, rfl, rfl, rfl⟩, ?_⟩
  intro c hc
  simp only [List.mem_cons, List.not_mem_nil, or_false, not_or] at hc
  obtain ⟨h1, h2, h3, h254⟩ := hc
  have hmap : MAP_FAN_MODE_ID c = none := by
    unfold MAP_FAN_MODE_ID
    simp [h1, h2, h3, h254]
  refine ⟨hmap, ?_⟩
  intro s hraw hfan
  unfold BghHVAC.parse_data
  cases hm : MAP_MODE_ID s.device.data.mode_id with
  | none => simp [hraw, hm]
  | some m => simp [hraw, hm, hfan, hmap]

/-- Witness for C2 at the concrete out-of-table code 9. -/
theorem c2_fan_mapping_witness :
    MAP_FAN_MODE_ID 9 = none ∧ BghHVAC.parse_data entFanBad = none := by
  have h := c2_fan_mapping.2 9 (by decide)
  exact ⟨h.1, h.2 entFanBad rfl rfl⟩

/-- C3: updating with a record whose `raw_data` is falsy rewrites only the
stored device record and the min/max bounds; the cached current
temperature, target temperature, mode and fan speed keep their prior
values. -/
theorem c3_no_raw_data_keeps_cache (s : BghHVAC) (d : Device)
    (h : d.raw_data = false) :
    BghHVAC.update s d =
      some { s with device := d, min_temp := some 17, max_temp := some 30 } := by
  unfold BghHVAC.update BghHVAC.parse_data
  simp [h]

/-- Witness for C3 on concrete state and record. -/
theorem c3_no_raw_data_keeps_cache_witness :
    devNoRaw.raw_data = false ∧
    BghHVAC.update entSample devNoRaw =
      some { entSample with device := devNoRaw, min_temp := some 17,
                            max_temp := some 30 } :=
  ⟨rfl, c3_no_raw_data_keeps_cache entSample devNoRaw rfl⟩

/-- C4: after `update` fetches a record with `raw_data` truthy and
`data = (temperature 22, target 24, mode_id 1, fan_speed 2)`, the entity
reports current temperature 22, target 24, hvac mode "cool" and fan mode
"medium". -/
theorem c4_refresh_cool_22 (s : BghHVAC) (d : Device)
    (hraw : d.raw_data = true) (ht : d.data.temperature = 22)
    (htt : d.data.target_temperature = 24) (hm : d.data.mode_id = 1)
    (hf : d.data.fan_speed = 2) :
    ∃ s1, BghHVAC.update s d = some s1 ∧
      s1.current_temperature = some 22 ∧ s1.target_temperature = some 24 ∧
      s1.hvac_mode = "cool" ∧ s1.fan_mode = "medium" := by
  have hupd : BghHVAC.update s d =
      some { s with
             device := d, min_temp := some 17, max_temp := some 30,
             current_temperature := some 22, target_temperature := some 24,
             mode := "cool", fan_speed := "medium" } := by
    unfold BghHVAC.update BghHVAC.parse_data
    simp [hraw, ht, htt, hm, hf, MAP_MODE_ID, MAP_FAN_MODE_ID, FAN_MEDIUM]
  exact ⟨_, hupd, rfl, rfl, rfl, rfl⟩

/-- Witness for C4 on a concrete state and record. -/
theorem c4_refresh_cool_22_witness :
    ∃ s1, BghHVAC.update entModeBad devCool22 = some s1 ∧
      s1.current_temperature = some 22 ∧ s1.target_temperature = some 24 ∧
      s1.hvac_mode = "cool" ∧ s1.fan_mode = "medium" :=
  c4_refresh_cool_22 entModeBad devCool22 rfl rfl rfl rfl rfl

/-- C5: in the config-flow `user` step with credentials submitted (and the
account not already configured), a client exposing a truthy token yields a
created entry titled by the username and carrying the submitted input; an
empty or missing token yields the form again with base error "auth". -/
theorem c5_config_flow_user (username password : String) (token : Option String) :
    (truthy_str token = true →
      async_step_user false (some (username, password)) token =
        FlowResult.createEntry username username password) ∧
    (truthy_str token = false →
      async_step_user false (some (username, password)) token =
        FlowResult.showForm [("base", "auth")]) := by
  constructor <;> intro h <;> simp [async_step_user, h]

/-- Witness for C5 on concrete credentials and tokens. -/
theorem c5_config_flow_user_witness :
    async_step_user false (some ("user", "pw")) (some "tok") =
      FlowResult.createEntry "user" "user" "pw" ∧
    async_step_user false (some ("user", "pw")) none =
      FlowResult.showForm [("base", "auth")] :=
  ⟨(c5_config_flow_user "user" "pw" (some "tok")).1 rfl,
   (c5_config_flow_user "user" "pw" none).2 rfl⟩

/-- C6: `set_temperature(temperature=20)` with no hvac-mode argument keeps
the cached mode, caches target temperature 20, and issues exactly one
vendor push carrying the unchanged mode, the new target 20 and the
unchanged fan speed. -/
theorem c6_set_temperature_keeps_mode (s : BghHVAC) :
    BghHVAC.set_temperature s (some 20) none =
      ({ s with target_temperature := some 20 },
       [{ device_id := s.device_id, mode := s.mode,
          target_temperature := some 20, fan_speed := s.fan_speed }]) := by
  rfl

/-- C9: `set_temperature(temperature=0)` leaves the cached target
unchanged (the update is guarded by truthiness, `0` being falsy) yet
still pushes once with the old target, and a call with no recognized
arguments also pushes the unchanged tuple exactly once. -/
theorem c9_falsy_temperature_still_pushes (s : BghHVAC) :
    BghHVAC.set_temperature s (some 0) none =
      (s, [{ device_id := s.device_id, mode := s.mode,
             target_temperature := s.target_temperature,
             fan_speed := s.fan_speed }]) ∧
    BghHVAC.set_temperature s none none =
      (s, [{ device_id := s.device_id, mode := s.mode,
             target_temperature := s.target_temperature,
             fan_speed := s.fan_speed }]) := by
  exact ⟨rfl, rfl⟩

/-- Any successful `_parse_data` leaves the bounds at 17 and 30. -/
theorem parse_data_bounds (s s1 : BghHVAC)
    (h : BghHVAC.parse_data s = some s1) :
    s1.min_temp = some 17 ∧ s1.max_temp = some 30 := by
  simp only [BghHVAC.parse_data] at h
  split at h
  · split at h
    · exact Option.noConfusion h
    · split at h
      · exact Option.noConfusion h
      · obtain rfl := Option.some.inj h
        exact ⟨rfl, rfl⟩
  · obtain rfl := Option.some.inj h
    exact ⟨rfl, rfl⟩

/-- `set_temperature` never touches the bounds. -/
theorem set_temperature_bounds (s : BghHVAC) (t : Option Int)
    (m : Option String) :
    (BghHVAC.set_temperature s t m).1.min_temp = s.min_temp ∧
    (BghHVAC.set_temperature s t m).1.max_temp = s.max_temp := by
  unfold BghHVAC.set_temperature
  cases t <;> cases m <;> dsimp only <;> (try split_ifs) <;> exact ⟨rfl, rfl⟩

/-- Each public call preserves bounds 17/30. -/
theorem op_preserves_bounds (s s1 : BghHVAC) (o : Op)
    (hmin : s.min_temp = some 17) (hmax : s.max_temp = some 30)
    (h : Op.apply s o = some s1) :
    s1.min_temp = some 17 ∧ s1.max_temp = some 30 := by
  cases o with
  | update d => exact parse_data_bounds _ _ h
  | setTemperature t m =>
    obtain rfl := Option.some.inj h
    have hb := set_temperature_bounds s t m
    exact ⟨hb.1.trans hmin, hb.2.trans hmax⟩
  | setHvacMode m =>
    obtain rfl := Option.some.inj h
    exact ⟨hmin, hmax⟩
  | setFanMode f =>
    obtain rfl := Option.some.inj h
    exact ⟨hmin, hmax⟩

/-- Bounds 17/30 are preserved by any call sequence. -/
theorem runOps_bounds (ops : List Op) : ∀ s s1 : BghHVAC,
    s.min_temp = some 17 → s.max_temp = some 30 →
    runOps s ops = some s1 →
    s1.min_temp = some 17 ∧ s1.max_temp = some 30 := by
  induction ops with
  | nil =>
    intro s s1 hmin hmax h
    obtain rfl := Option.some.inj h
    exact ⟨hmin, hmax⟩
  | cons o rest ih =>
    intro s s1 hmin hmax h
    unfold runOps at h
    cases ha : Op.apply s o with
    | none => rw [ha] at h; exact Option.noConfusion h
    | some s2 =>
      rw [ha] at h
      have hb := op_preserves_bounds s s2 o hmin hmax ha
      exact ih s2 s1 hb.1 hb.2 h

/-- C7: every entity reachable by construction followed by any sequence of
update / set_temperature / set_hvac_mode / set_fan_mode calls reports
`min_temp = 17` and `max_temp = 30`, regardless of device record
content. -/
theorem c7_bounds_always_17_30 (d : Device) (s0 s : BghHVAC) (ops : List Op)
    (hinit : BghHVAC.init d = some s0) (hrun : runOps s0 ops = some s) :
    s.min_temp = some 17 ∧ s.max_temp = some 30 := by
  have h0 := parse_data_bounds _ _ hinit
  exact runOps_bounds ops s0 s h0.1 h0.2 hrun

/-- The entity produced by constructing on `devNoRaw`. -/
def entInit0 : BghHVAC :=
  { device := devNoRaw, device_name := "ac", device_id := 1, home_id := 5,
    min_temp := some 17, max_temp := some 30,
    current_temperature := none, target_temperature := none,
    mode := STATE_UNKNOWN, fan_speed := FAN_AUTO }

/-- `entInit0` after `set_hvac_mode("heat")` then an update answering
`devCool22`. -/
def entAfterOps : BghHVAC :=
  { device := devCool22, device_name := "ac", device_id := 1, home_id := 5,
    min_temp := some 17, max_temp := some 30,
    current_temperature := some 22, target_temperature := some 24,
    mode := "cool", fan_speed := "medium" }

/-- Witness for C7 on a concrete construction and call sequence. -/
theorem c7_bounds_always_17_30_witness :
    BghHVAC.init devNoRaw = some entInit0 ∧
    runOps entInit0 [Op.setHvacMode "heat", Op.update devCool22] =
      some entAfterOps ∧
    entAfterOps.min_temp = some 17 ∧ entAfterOps.max_temp = some 30 := by
  have h1 : BghHVAC.init devNoRaw = some entInit0 := rfl
  have h2 : runOps entInit0 [Op.setHvacMode "heat", Op.update devCool22] =
      some entAfterOps := rfl
  exact ⟨h1, h2,
    c7_bounds_always_17_30 devNoRaw entInit0 entAfterOps _ h1 h2⟩

/-- Folding append over a list is the flattened map. -/
theorem foldl_append_eq_flatten {α β : Type} (f : α → List β) :
    ∀ (l : List α) (acc : List β),
      l.foldl (fun a x => a ++ f x) acc = acc ++ (l.map f).flatten := by
  intro l
  induction l with
  | nil => intro acc; simp
  | cons x xs ih => intro acc; simp [ih]

/-- C8: device discovery enumerates every home from `get_homes`, fetches
each home's devices by its `HomeID`, and yields the concatenation of all
device records in enumeration order with no deduplication or filtering;
when the token is truthy, `setup_platform` constructs one entity per
record in that order. -/
theorem c8_discovery_order (client : SetupClient) :
    setup_devices client = discovered_devices_spec client ∧
    setup_platform client =
      (if truthy_str client.token then
        some ((discovered_devices_spec client).map BghHVAC.init)
      else none) := by
  have h : setup_devices client = discovered_devices_spec client := by
    unfold setup_devices discovered_devices_spec
    simpa using foldl_append_eq_flatten
      (fun home => (client.devices home.HomeID).map (fun p => p.2))
      client.homes []
  refine ⟨h, ?_⟩
  unfold setup_platform
  rw [h]

/-- C10: constructing an entity on a record with `raw_data` falsy keeps
the constructor defaults: no current or target temperature, mode
"unknown", fan "auto", bounds 17/30. -/
theorem c10_constructor_defaults (d : Device) (h : d.raw_data = false) :
    ∃ s, BghHVAC.init d = some s ∧
      s.current_temperature = none ∧ s.target_temperature = none ∧
      s.hvac_mode = "unknown" ∧ s.fan_mode = "auto" ∧
      s.min_temp = some 17 ∧ s.max_temp = some 30 := by
  have hinit : BghHVAC.init d =
      some { device := d, device_name := d.device_name,
             device_id := d.device_id, home_id := d.device_data.HomeID,
             min_temp := some 17, max_temp := some 30,
             current_temperature := none, target_temperature := none,
             mode := STATE_UNKNOWN, fan_speed := FAN_AUTO } := by
    unfold BghHVAC.init BghHVAC.parse_data
    simp [h]
  exact ⟨_, hinit, rfl, rfl, rfl, rfl, rfl, rfl⟩

/-- Witness for C10 on the concrete record `devNoRaw`. -/
theorem c10_constructor_defaults_witness :
    devNoRaw.raw_data = false ∧
    ∃ s, BghHVAC.init devNoRaw = some s ∧
      s.current_temperature = none ∧ s.target_temperature = none ∧
      s.hvac_mode = "unknown" ∧ s.fan_mode = "auto" ∧
      s.min_temp = some 17 ∧ s.max_temp = some 30 :=
  ⟨rfl, c10_constructor_defaults devNoRaw rfl⟩
